import Mathlib

/-!
Shallow embedding of the frame-orchestration core of the `rhyolite-fluids`
rendering engine (Rust, vulkano-based), for checking its natural-language
specification.

Conventions used throughout:
* Rust functions that can `panic!` are modelled as functions into `Option`
  (`none` models the panic).
* GPU objects (swapchains, images, framebuffers, attachment buffers,
  pipelines, fences, futures) are modelled by `Nat` identifiers; newly
  created objects draw fresh identifiers from a `fresh` supply stored in the
  state, so "the resource was replaced" is expressible.
* Environment interactions (swapchain image acquisition, swapchain
  recreation, queue flush) are passed in as explicit result values, since
  their outcome is decided by the GPU driver.
* Commands recorded into the frame's command buffer are modelled as a
  `List Cmd` (the contents of the `AutoCommandBufferBuilder`).
-/

namespace Rhyolite

/-- The graphics pipelines of the deferred mesh renderer
(`src/src/renderer/mod.rs`, `src/src/renderer/mesh.rs`). -/
inductive PipelineId
  | albedo
  | point
  | ambient
  | unlit
deriving DecidableEq

/-- Vertex buffers bound while drawing: the full-screen dummy vertex buffer,
or a mesh object's vertex buffer of a given length. -/
inductive BufId
  | dummy
  | obj (len : Nat)
deriving DecidableEq

/-- One command recorded into the frame's command buffer. -/
inductive Cmd
  | beginRenderPass (framebuffers : Nat) (image_idx : Nat)
  | setViewport
  | bindPipeline (p : PipelineId)
  | bindDescriptorSets (p : PipelineId)
  | bindVertexBuffer (b : BufId)
  | draw (vertices : Nat)
  | drawIndirect
  | nextSubpass
  | endRenderPass
deriving DecidableEq

/-- Externally visible synchronization events performed by the renderer. -/
inductive Event
  | waitedFence (f : Nat)
  | beganRenderPass (framebuffers : Nat) (image_idx : Nat)
  | submitted (joined : Option Nat) (acquire_future : Nat) (image_idx : Nat)
      (command_buffer : List Cmd)
deriving DecidableEq

/-- Result of `swapchain::acquire_next_image` as observed by `Renderer::start`
(`src/src/renderer/mod.rs:331-339`): success with an image index, a
suboptimal flag and an acquire future; `AcquireError::OutOfDate`; or any
other acquire error (which the code turns into a panic). -/
inductive AcquireResult
  | ok (image_idx : Nat) (suboptimal : Bool) (future : Nat)
  | outOfDate
  | otherError
deriving DecidableEq

/-- Result of `Swapchain::recreate` as observed by `Renderer::recreate_swapchain`
(`src/src/renderer/mod.rs:285-298`): success,
`SwapchainCreationError::ImageExtentNotSupported`, or any other creation
error (which the code turns into a panic). -/
inductive RecreateResult
  | ok
  | imageExtentNotSupported
  | otherError
deriving DecidableEq

/-- Result of `then_signal_fence_and_flush` as observed by `Renderer::finish`
(`src/src/renderer/mod.rs:420-433`): a signalled fence future on success,
`FlushError::OutOfDate`, or any other flush error. -/
inductive FlushResult
  | ok (fence : Nat)
  | outOfDate
  | otherError
deriving DecidableEq

/-- A `Camera` as far as frame orchestration observes it: `none` while
unconfigured, `some sz` once `Camera::configure` ran against window size
`sz` (`src/src/camera.rs:54-68`, `78-80`). -/
abbrev Camera := Option (Nat × Nat)

/-- `DummyVertex::list()` returns six vertices covering the whole screen
(`src/src/geometry/dummy.rs:15-36`), so the dummy vertex buffer has
length 6. -/
def dummy_vertex_len : Nat := 6

namespace Mesh

/-- `RenderStage` of the mesh renderer (`src/src/renderer/mesh.rs:44-51`). -/
inductive RenderStage
  | Stopped
  | Albedo
  | Ambient
  | Point
  | Unlit
deriving DecidableEq

/-- `RenderStage::update` (`src/src/renderer/mesh.rs:70-113`): advance `self`
to `new_stage`, panicking (`none`) when the stages are called out of order.
The source matches on `new_stage` first and on `self` second; arms that
leave `self` unchanged (`RenderStage::Albedo => ()` etc.) are the arms where
`self` already equals `new_stage`. -/
def RenderStage.update (self new_stage : RenderStage) : Option RenderStage :=
  match new_stage with
  | .Albedo =>
    match self with
    | .Stopped => some .Albedo
    | .Albedo => some .Albedo
    | _ => none
  | .Ambient =>
    match self with
    | .Albedo => some .Ambient
    | _ => none
  | .Point =>
    match self with
    | .Ambient => some .Point
    | .Point => some .Point
    | _ => none
  | .Unlit =>
    match self with
    | .Ambient | .Point => some .Unlit
    | .Unlit => some .Unlit
    | _ => none
  | .Stopped =>
    match self with
    | .Ambient | .Point | .Unlit => some .Stopped
    | _ => none

/-- The legal stage entries exactly as the specification sentence lists them
(spec side of the refinement check for the stage machine): Albedo from
Stopped or Albedo, Ambient from Albedo, Point from Ambient or Point, Unlit
from Ambient, Point or Unlit, and Stopped (finish) from Ambient, Point or
Unlit. -/
def legal_stage_entry (current entering : RenderStage) : Bool :=
  match entering with
  | .Albedo => current = .Stopped || current = .Albedo
  | .Ambient => current = .Albedo
  | .Point => current = .Ambient || current = .Point
  | .Unlit => current = .Ambient || current = .Point || current = .Unlit
  | .Stopped => current = .Ambient || current = .Point || current = .Unlit

/-- The fields of `RenderBase` that the mesh renderer's frame orchestration
reads and writes (`src/src/renderer/mesh.rs` accesses `base.device`,
`base.swapchain`, `base.images`, `base.viewport`,
`base.should_recreate_swapchain`, `base.render_error` and the command
buffer behind `base.commands_mut()`). The struct's own definition is not
under `src/`; its fields are reconstructed from these accesses. -/
structure RenderBase where
  window_size : Nat × Nat
  swapchain : Nat
  images : Nat
  images_dims : Nat × Nat
  viewport_dims : Nat × Nat
  should_recreate_swapchain : Bool
  render_error : Bool
  commands : Option (List Cmd)
  fresh : Nat
deriving DecidableEq

/-- Modelled from the spec: `RenderBase::recreate_swapchain` is not under
`src/` (only its callers are). Per the spec, the swapchain "must be
recreated when the window resizes"; this definition mirrors the recreation
logic of `Renderer::recreate_swapchain` (`src/src/renderer/mod.rs:285-298`),
which the claims cite for this step, restricted to the base's own fields:
recreate the swapchain at the window's current size, replacing the
swapchain and its images on success; return leaving everything unchanged on
`ImageExtentNotSupported`; panic on any other error. -/
def RenderBase.recreate_swapchain (b : RenderBase) (res : RecreateResult) :
    Option RenderBase :=
  match res with
  | .ok =>
    some { b with
      swapchain := b.fresh
      images := b.fresh + 1
      images_dims := b.window_size
      fresh := b.fresh + 2 }
  | .imageExtentNotSupported => some b
  | .otherError => none

/-- Modelled from the spec: `RenderBase::start` is not under `src/` (only its
callers are). Per the spec, the component coordinates "swapchain
acquisition" and begins the frame's render pass on the framebuffer of the
acquired image; this definition mirrors the acquisition half of
`Renderer::start` (`src/src/renderer/mod.rs:331-383`) with the error
recorded in the `render_error` flag that the mesh renderer's draw calls
test. -/
def RenderBase.start (b : RenderBase) (framebuffers : Nat) (acq : AcquireResult) :
    Option (RenderBase × List Event) :=
  match acq with
  | .outOfDate =>
    some ({ b with render_error := true, should_recreate_swapchain := true }, [])
  | .otherError => none
  | .ok i _ _ =>
    some ({ b with render_error := false, commands := some [Cmd.beginRenderPass framebuffers i] },
      [Event.beganRenderPass framebuffers i])

/-- `window_size_dependent_setup` (`src/src/renderer/mesh.rs:559-638`): from
the swapchain images, build fresh attachment buffers, framebuffers and
pipelines, and set the viewport dimensions to the images' dimensions.
Returns `((framebuffers, attachment_buffers, pipelines), viewport_dims,
fresh')`. -/
def window_size_dependent_setup (images_dims : Nat × Nat) (fresh : Nat) :
    (Nat × Nat × Nat) × (Nat × Nat) × Nat :=
  ((fresh, fresh + 1, fresh + 2), images_dims, fresh + 3)

/-- `MeshRenderer` (`src/src/renderer/mesh.rs:116-134`), restricted to the
fields frame orchestration touches. -/
structure MeshRenderer where
  base : RenderBase
  framebuffers : Nat
  attachment_buffers : Nat
  pipelines : Nat
  vp_set : Bool
  render_stage : RenderStage
deriving DecidableEq

/-- `MeshRenderer::recreate_all_size_dependent`
(`src/src/renderer/mesh.rs:531-544`): recreate the swapchain via the base,
then rebuild framebuffers, attachment buffers and pipelines (and the
viewport dimensions) from the (possibly new) images. -/
def MeshRenderer.recreate_all_size_dependent (r : MeshRenderer)
    (res : RecreateResult) : Option MeshRenderer :=
  (r.base.recreate_swapchain res).map fun b =>
    let out := window_size_dependent_setup b.images_dims b.fresh
    { r with
      base := { b with viewport_dims := out.2.1, fresh := out.2.2 }
      framebuffers := out.1.1
      attachment_buffers := out.1.2.1
      pipelines := out.1.2.2 }

/-- `MeshRenderer::start_render_pass` (`src/src/renderer/mesh.rs:197-226`):
configure the camera if it is unconfigured, create the view-projection
descriptor set, and, when `should_recreate_swapchain` is set, reconfigure
the camera with the window size and recreate all size-dependent resources;
finally `base.start` begins the frame (acquisition and render-pass begin). -/
def MeshRenderer.start_render_pass (r : MeshRenderer) (camera : Camera)
    (res : RecreateResult) (acq : AcquireResult) :
    Option (MeshRenderer × Camera × List Event) :=
  let camera := match camera with
    | none => some r.base.window_size
    | some d => some d
  let r := { r with vp_set := true }
  let step : Option (MeshRenderer × Camera) :=
    if r.base.should_recreate_swapchain then
      (r.recreate_all_size_dependent res).map fun r1 =>
        (r1, some r.base.window_size)
    else some (r, camera)
  match step with
  | none => none
  | some (r1, camera) =>
    (r1.base.start r1.framebuffers acq).map fun out =>
      ({ r1 with base := out.1 }, camera, out.2)

/-- The command-buffer commands appended by one `MeshRenderer::draw_point_light`
call (`src/src/renderer/mesh.rs:449-461`): bind the point pipeline and its
descriptor sets, bind the dummy vertex buffer, and issue one draw over its
six vertices. -/
def point_light_cmds : List Cmd :=
  [Cmd.bindPipeline .point, Cmd.bindDescriptorSets .point,
   Cmd.bindVertexBuffer .dummy, Cmd.draw dummy_vertex_len]

/-- `MeshRenderer::draw_point_light` (`src/src/renderer/mesh.rs:421-461`):
return immediately on a render error; otherwise advance the render stage to
`Point` (panicking when out of order) and append the point-light commands
to the frame's command buffer. -/
def MeshRenderer.draw_point_light (r : MeshRenderer) : Option MeshRenderer :=
  if r.base.render_error then some r
  else
    match r.render_stage.update .Point with
    | none => none
    | some s =>
      match r.base.commands with
      | none => none
      | some cmds =>
        some { r with
          render_stage := s
          base := { r.base with commands := some (cmds ++ point_light_cmds) } }

/-- `n` consecutive `draw_point_light` calls. -/
def MeshRenderer.draw_point_lights : Nat → MeshRenderer → Option MeshRenderer
  | 0, r => some r
  | n + 1, r => r.draw_point_light.bind (MeshRenderer.draw_point_lights n)

/-- Blend operations used by the mesh pipelines
(`vulkano::pipeline::graphics::color_blend::BlendOp`). -/
inductive BlendOp
  | add
  | max
deriving DecidableEq

/-- Blend factors used by the mesh pipelines (`BlendFactor::One`). -/
inductive BlendFactor
  | one
deriving DecidableEq

/-- `vulkano`'s `AttachmentBlend` configuration record. -/
structure AttachmentBlend where
  color_op : BlendOp
  color_source : BlendFactor
  color_destination : BlendFactor
  alpha_op : BlendOp
  alpha_source : BlendFactor
  alpha_destination : BlendFactor
deriving DecidableEq

/-- The `AttachmentBlend` installed on the point-light pipeline in
`Pipelines::new` (`src/src/renderer/mesh.rs:687-698`). -/
def point_pipeline_blend : AttachmentBlend :=
  { color_op := .add
    color_source := .one
    color_destination := .one
    alpha_op := .max
    alpha_source := .one
    alpha_destination := .one }

/-- Attachments declared by the mesh renderer's render pass
(`src/src/renderer/mesh.rs:765-803`). -/
inductive AttachmentName
  | final_color
  | albedo
  | normals
  | frag_pos
  | specular
  | depth
deriving DecidableEq

/-- One subpass of an `ordered_passes_renderpass!` declaration: its color
attachments, depth/stencil attachments and input attachments. -/
structure SubpassDesc where
  color : List AttachmentName
  depth_stencil : List AttachmentName
  input : List AttachmentName
deriving DecidableEq

/-- The `passes:` block of `get_render_pass`
(`src/src/renderer/mesh.rs:804-816`): the first subpass writes the four
G-buffer attachments with no inputs; the second writes the final color
attachment reading the four G-buffer attachments as inputs. -/
def get_render_pass_subpasses : List SubpassDesc :=
  [ { color := [.albedo, .normals, .frag_pos, .specular]
      depth_stencil := [.depth]
      input := [] },
    { color := [.final_color]
      depth_stencil := [.depth]
      input := [.albedo, .normals, .frag_pos, .specular] } ]

/-- Well-formedness of the identifier supply: every GPU object identifier
held by the renderer was drawn from the supply, i.e. is below `fresh`.
Holds for every state reachable from construction, and makes "the resource
was replaced" provable as an inequality of identifiers. -/
def MeshRenderer.wf (r : MeshRenderer) : Prop :=
  r.base.swapchain < r.base.fresh ∧ r.base.images < r.base.fresh ∧
  r.framebuffers < r.base.fresh ∧ r.attachment_buffers < r.base.fresh ∧
  r.pipelines < r.base.fresh

instance (r : MeshRenderer) : Decidable r.wf := by
  unfold MeshRenderer.wf; infer_instance

end Mesh

namespace Mod

/-- `RenderStage` of the deferred renderer in `src/src/renderer/mod.rs:46-54`,
which adds an `Error` state to the stages of the mesh renderer. -/
inductive RenderStage
  | Stopped
  | Albedo
  | Ambient
  | Point
  | Unlit
  | Error
deriving DecidableEq

/-- `MAX_FRAMES_IN_FLIGHT` (`src/src/renderer/mod.rs:44`). -/
def MAX_FRAMES_IN_FLIGHT : Nat := 3

/-- The fence pool as initialized in `Renderer::new`
(`src/src/renderer/mod.rs:237`): one empty slot per frame in flight. -/
def initial_fences : List (Option Nat) :=
  List.replicate MAX_FRAMES_IN_FLIGHT none

/-- The fields of `Renderer` (`src/src/renderer/mod.rs:57-98`) that frame
orchestration reads and writes. Fence futures are identifiers; `fences` is
the pool indexed by swapchain image. -/
structure State where
  render_stage : RenderStage
  should_recreate_swapchain : Bool
  commands : Option (List Cmd)
  image_idx : Nat
  acquire_future : Option Nat
  fences : List (Option Nat)
  previous_fence_idx : Nat
  ambient_light_buf : Option Nat
  swapchain : Nat
  framebuffers : Nat
  attachment_buffers : Nat
  viewport_dims : Nat × Nat
  window_size : Nat × Nat
  fresh : Nat
deriving DecidableEq

/-- `Renderer::recreate_swapchain` (`src/src/renderer/mod.rs:285-298`):
recreate the swapchain at the window's current size; on
`ImageExtentNotSupported` return leaving every field unchanged; on any
other error panic; on success replace the swapchain and rebuild
framebuffers, attachment buffers and the viewport dimensions from the new
images via `vulkan_setup::window_size_dependent_setup`. -/
def State.recreate_swapchain (st : State) (res : RecreateResult) : Option State :=
  match res with
  | .ok =>
    some { st with
      swapchain := st.fresh
      framebuffers := st.fresh + 1
      attachment_buffers := st.fresh + 2
      viewport_dims := st.window_size
      fresh := st.fresh + 3 }
  | .imageExtentNotSupported => some st
  | .otherError => none

/-- `Renderer::start` (`src/src/renderer/mod.rs:311-383`): configure the
camera if unconfigured and create the view-projection descriptor set; if
`should_recreate_swapchain` is set, recreate the swapchain and update the
camera's aspect ratio; acquire the next swapchain image, setting the render
stage to `Error` and marking the swapchain for recreation on
`AcquireError::OutOfDate` (panicking on other errors); wait on the fence
stored in the acquired image's slot if one is present; then begin recording
the frame's command buffer with a render pass on the image's framebuffer
and enter the `Albedo` stage. -/
def State.start (st : State) (camera : Camera) (res : RecreateResult)
    (acq : AcquireResult) : Option (State × Camera × List Event) :=
  let camera := match camera with
    | none => some st.window_size
    | some d => some d
  match (if st.should_recreate_swapchain then st.recreate_swapchain res
         else some st) with
  | none => none
  | some st1 =>
    let camera := if st.should_recreate_swapchain then some st1.window_size
      else camera
    match acq with
    | .outOfDate =>
      some ({ st1 with render_stage := .Error, should_recreate_swapchain := true },
        camera, [])
    | .otherError => none
    | .ok i _ f =>
      match st1.fences[i]? with
      | none => none
      | some slot =>
        let evs := match slot with
          | some g => [Event.waitedFence g]
          | none => []
        some ({ st1 with
            commands := some [Cmd.beginRenderPass st1.framebuffers i]
            image_idx := i
            acquire_future := some f
            render_stage := .Albedo },
          camera, evs ++ [Event.beganRenderPass st1.framebuffers i])

/-- The fence value stored into the acquired image's slot by
`Renderer::finish` (`src/src/renderer/mod.rs:420-433`): the signalled fence
future on success, `None` on a flush error. -/
def flush_fence : FlushResult → Option Nat
  | .ok fence => some fence
  | .outOfDate => none
  | .otherError => none

/-- `Renderer::finish` (`src/src/renderer/mod.rs:388-445`): panic unless the
stage is `Point` or `Unlit` (in the `Error` stage, drop the command buffer
and return); end and build the render pass; take the fence stored at
`previous_fence_idx` (emptying that slot) and join it with the acquire
future into the submission; store the resulting fence future (or `None` on
a flush error) into the acquired image's slot; finally clear the command
buffer, return to `Stopped`, and record the acquired image's slot as
`previous_fence_idx`. -/
def State.finish (st : State) (flush : FlushResult) :
    Option (State × List Event) :=
  match st.render_stage with
  | .Error => some ({ st with commands := none }, [])
  | .Point | .Unlit =>
    match st.commands with
    | none => none
    | some cmds =>
      let cmds := cmds ++ [Cmd.endRenderPass]
      match st.acquire_future with
      | none => none
      | some af =>
        match st.fences[st.previous_fence_idx]? with
        | none => none
        | some prev_slot =>
          let fences1 := st.fences.set st.previous_fence_idx none
          match fences1[st.image_idx]? with
          | none => none
          | some _ =>
            some ({ st with
                fences := fences1.set st.image_idx (flush_fence flush)
                commands := none
                render_stage := .Stopped
                previous_fence_idx := st.image_idx
                acquire_future := none },
              [Event.submitted prev_slot af st.image_idx cmds])
  | _ => none

/-- The commands appended by one `Renderer::draw_object` call
(`src/src/renderer/mod.rs:497-509`). -/
def draw_object_cmds (obj_len : Nat) : List Cmd :=
  [Cmd.setViewport, Cmd.bindPipeline .albedo, Cmd.bindDescriptorSets .albedo,
   Cmd.bindVertexBuffer (.obj obj_len), Cmd.draw obj_len]

/-- `Renderer::draw_object` (`src/src/renderer/mod.rs:451-512`): in the
`Albedo` stage append the albedo commands for the object's vertex buffer;
in the `Error` stage drop the command buffer and return `Ok`; panic
otherwise. -/
def State.draw_object (st : State) (obj_len : Nat) : Option State :=
  match st.render_stage with
  | .Albedo =>
    match st.commands with
    | none => none
    | some cmds => some { st with commands := some (cmds ++ draw_object_cmds obj_len) }
  | .Error => some { st with commands := none }
  | _ => none

/-- The commands appended by `Renderer::draw_ambient_light` when an ambient
light buffer exists (`src/src/renderer/mod.rs:563-576`). -/
def ambient_light_cmds : List Cmd :=
  [Cmd.nextSubpass, Cmd.setViewport, Cmd.bindPipeline .ambient,
   Cmd.bindDescriptorSets .ambient, Cmd.bindVertexBuffer .dummy,
   Cmd.draw dummy_vertex_len]

/-- `Renderer::draw_ambient_light` (`src/src/renderer/mod.rs:533-577`): in
the `Albedo` stage advance to `Ambient`; when no ambient light buffer was
set, only move to the next subpass and return without drawing; otherwise
move to the next subpass and draw the ambient light over the dummy vertex
buffer. In the `Error` stage drop the command buffer and return; panic
otherwise. -/
def State.draw_ambient_light (st : State) : Option State :=
  match st.render_stage with
  | .Albedo =>
    let st := { st with render_stage := .Ambient }
    match st.commands with
    | none => none
    | some cmds =>
      match st.ambient_light_buf with
      | none => some { st with commands := some (cmds ++ [Cmd.nextSubpass]) }
      | some _ => some { st with commands := some (cmds ++ ambient_light_cmds) }
  | .Error => some { st with commands := none }
  | _ => none

/-- The commands appended by one `Renderer::draw_point_light` call
(`src/src/renderer/mod.rs:612-622`). -/
def mod_point_light_cmds : List Cmd :=
  [Cmd.bindPipeline .point, Cmd.bindDescriptorSets .point,
   Cmd.bindVertexBuffer .dummy, Cmd.draw dummy_vertex_len]

/-- `Renderer::draw_point_light` (`src/src/renderer/mod.rs:582-623`): from
`Ambient` enter `Point`; from `Point` stay; in `Error` drop the command
buffer and return; panic otherwise; then draw the light over the dummy
vertex buffer. -/
def State.draw_point_light (st : State) : Option State :=
  match st.render_stage with
  | .Ambient =>
    match st.commands with
    | none => none
    | some cmds =>
      some { st with render_stage := .Point
                     commands := some (cmds ++ mod_point_light_cmds) }
  | .Point =>
    match st.commands with
    | none => none
    | some cmds => some { st with commands := some (cmds ++ mod_point_light_cmds) }
  | .Error => some { st with commands := none }
  | _ => none

/-- The commands appended by one `Renderer::draw_object_unlit` call
(`src/src/renderer/mod.rs:659-670`). -/
def draw_object_unlit_cmds (obj_len : Nat) : List Cmd :=
  [Cmd.bindPipeline .unlit, Cmd.bindDescriptorSets .unlit,
   Cmd.bindVertexBuffer (.obj obj_len), Cmd.draw obj_len]

/-- `Renderer::draw_object_unlit` (`src/src/renderer/mod.rs:628-673`): from
`Point` enter `Unlit`; from `Unlit` stay; in `Error` drop the command
buffer and return `Ok`; panic otherwise; then draw the object unlit. -/
def State.draw_object_unlit (st : State) (obj_len : Nat) : Option State :=
  match st.render_stage with
  | .Point =>
    match st.commands with
    | none => none
    | some cmds =>
      some { st with render_stage := .Unlit
                     commands := some (cmds ++ draw_object_unlit_cmds obj_len) }
  | .Unlit =>
    match st.commands with
    | none => none
    | some cmds => some { st with commands := some (cmds ++ draw_object_unlit_cmds obj_len) }
  | .Error => some { st with commands := none }
  | _ => none

end Mod

namespace Marched

/-- A three-component vector. `f32` components are modelled as exact
rationals; the engine only stores and copies them on the paths modelled
here, it never computes with them. -/
structure Vec3 where
  x : Rat
  y : Rat
  z : Rat
deriving DecidableEq

/-- `expand_vec3` (`src/rhyolite/src/shaders/mod.rs:122-124`): pad a vec3 to
a 4-component array with a trailing zero, for uniform-buffer alignment. -/
def expand_vec3 (v : Vec3) : Rat × Rat × Rat × Rat :=
  (v.x, v.y, v.z, 0)

/-- `Metaball` (`src/src/geometry/marched.rs:6-10`): "a sphere that blends
with other spheres", holding a position, a color and a radius. -/
structure Metaball where
  position : Vec3
  color : Vec3
  radius : Rat
deriving DecidableEq

/-- `Metaball::new` (`src/src/geometry/marched.rs:13-19`). -/
def Metaball.new (position : Vec3) (color : Vec3) (radius : Rat) : Metaball :=
  { position := position, color := color, radius := radius }

/-- The names of the parameters of `Metaball::new`
(`src/src/geometry/marched.rs:13`), in order. -/
def Metaball.constructor_param_names : List String :=
  ["position", "color", "radius"]

/-- The uniform record `marched_frag::UMetaball` that a metaball uploads for
rendering (`src/src/geometry/marched.rs:34-42`,
`src/src/renderer/marched.rs:217-224`). -/
structure UMetaball where
  position : Rat × Rat × Rat × Rat
  color : Rat × Rat × Rat × Rat
  radius : Rat
deriving DecidableEq

/-- The names of the fields written into `marched_frag::UMetaball`
(`src/src/geometry/marched.rs:36-40`), in order. -/
def UMetaball.field_names : List String :=
  ["position", "color", "radius"]

/-- `Metaball::get_raw` (`src/src/geometry/marched.rs:34-42`): the uniform
data uploaded for one metaball. -/
def Metaball.get_raw (m : Metaball) : UMetaball :=
  { position := expand_vec3 m.position
    color := expand_vec3 m.color
    radius := m.radius }

/-- `MAX_POINT_LIGHTS` (`src/rhyolite/src/renderer/marched.rs:30`). -/
def MAX_POINT_LIGHTS : Nat := 16

/-- `MAX_METABALLS` (`src/rhyolite/src/renderer/marched.rs:31`). -/
def MAX_METABALLS : Nat := 1024

/-- The write loop of `to_partially_init_arr`
(`src/rhyolite/src/renderer/marched.rs:380-389`): on each iteration with
index `i`, first panic (`none`) if `i + 1 == MAX_LEN`, then write the
element. Returns the prefix of the array that was initialized; the
remaining entries stay uninitialized and are not modelled. -/
def write_loop (MAX_LEN : Nat) : Nat → List α → Option (List α)
  | _, [] => some []
  | i, v :: vs =>
    if i + 1 = MAX_LEN then none
    else (write_loop MAX_LEN (i + 1) vs).map (v :: ·)

/-- `to_partially_init_arr` (`src/rhyolite/src/renderer/marched.rs:376-391`):
build a fixed-capacity array whose first entries are the iterator's
elements, panicking (`none`) when the iterator yields too many elements.
The value is the initialized prefix of the array. -/
def to_partially_init_arr (MAX_LEN : Nat) (values : List α) : Option (List α) :=
  write_loop MAX_LEN 0 values

end Marched

/-- A concrete `RenderBase` used to witness the theorems about the mesh
renderer on a concrete state. -/
def example_base : Mesh.RenderBase :=
  { window_size := (300, 300)
    swapchain := 0
    images := 1
    images_dims := (300, 300)
    viewport_dims := (300, 300)
    should_recreate_swapchain := false
    render_error := false
    commands := some []
    fresh := 5 }

/-- A concrete `MeshRenderer` in the `Ambient` stage. -/
def example_mesh_renderer : Mesh.MeshRenderer :=
  { base := example_base
    framebuffers := 2
    attachment_buffers := 3
    pipelines := 4
    vp_set := true
    render_stage := .Ambient }

/-- A concrete `MeshRenderer` whose `should_recreate_swapchain` flag is set,
as after a window resize. -/
def example_resize_renderer : Mesh.MeshRenderer :=
  { example_mesh_renderer with
    base := { example_base with should_recreate_swapchain := true }
    render_stage := .Stopped }

/-- A concrete `Mod.State` in the `Albedo` stage of a frame recorded into
image 1, with a pending fence in slot 2. -/
def example_mod_state : Mod.State :=
  { render_stage := .Albedo
    should_recreate_swapchain := false
    commands := some [Cmd.beginRenderPass 7 1]
    image_idx := 1
    acquire_future := some 11
    fences := [none, none, some 9]
    previous_fence_idx := 2
    ambient_light_buf := none
    swapchain := 0
    framebuffers := 7
    attachment_buffers := 8
    viewport_dims := (300, 300)
    window_size := (300, 300)
    fresh := 12 }

end Rhyolite

open Rhyolite

/-! Helper lemmas about the write loop of `to_partially_init_arr`. -/

/-- When the elements fit strictly below the capacity, the write loop writes
them all, in order, without panicking. -/
theorem Marched.write_loop_complete {α : Type} (MAX_LEN : Nat) :
    ∀ (vs : List α) (i : Nat), i + vs.length < MAX_LEN →
      Marched.write_loop MAX_LEN i vs = some vs := by
  intro vs
  induction vs with
  | nil => intro i _; rfl
  | cons v vs ih =>
    intro i h
    have h1 : ¬ (i + 1 = MAX_LEN) := by
      simp only [List.length_cons] at h; omega
    have h2 : Marched.write_loop MAX_LEN (i + 1) vs = some vs := by
      apply ih; simp only [List.length_cons] at h; omega
    simp [Marched.write_loop, h1, h2]

/-- When the elements reach the capacity, the write loop panics. -/
theorem Marched.write_loop_overflow {α : Type} (MAX_LEN : Nat) :
    ∀ (vs : List α) (i : Nat), i < MAX_LEN → MAX_LEN ≤ i + vs.length →
      Marched.write_loop MAX_LEN i vs = none := by
  intro vs
  induction vs with
  | nil =>
    intro i h1 h2
    exfalso; simp only [List.length_nil] at h2; omega
  | cons v vs ih =>
    intro i h1 h2
    by_cases hEq : i + 1 = MAX_LEN
    · simp [Marched.write_loop, hEq]
    · have h3 : Marched.write_loop MAX_LEN (i + 1) vs = none := by
        apply ih (i + 1) (by omega)
        simp only [List.length_cons] at h2; omega
      simp [Marched.write_loop, hEq, h3]

/-- C1: the mesh renderer's per-frame draw operations must occur in a fixed
legal order within one render pass: for every sequence of calls in a frame,
entering the Albedo stage is legal only from Stopped or Albedo, entering
Ambient only from Albedo, entering Point only from Ambient or Point,
entering Unlit only from Ambient, Point, or Unlit, and returning to Stopped
(finish) only from Ambient, Point, or Unlit; any other stage transition
panics (`RenderStage::update` returns `none`), and no transition is
silently reordered: on success the stage becomes exactly the requested
stage. -/
theorem C1_render_stage_legal_order :
    ∀ s t : Mesh.RenderStage,
      Mesh.RenderStage.update s t =
        if Mesh.legal_stage_entry s t then some t else none := by
  intro s t
  cases s <;> cases t <;> rfl

/-- C5: the deferred-shading render pass consists of exactly two subpasses:
the first writes the four G-buffer attachments (albedo, normals, frag_pos,
specular) as color outputs with no input attachments, and the second
computes lighting reading exactly those four G-buffer attachments as input
attachments while writing only the final color attachment as its color
output. -/
theorem C5_deferred_render_pass_structure :
    Mesh.get_render_pass_subpasses.length = 2 ∧
    Mesh.get_render_pass_subpasses.map Mesh.SubpassDesc.input =
      [[], [.albedo, .normals, .frag_pos, .specular]] ∧
    Mesh.get_render_pass_subpasses.map Mesh.SubpassDesc.color =
      [[.albedo, .normals, .frag_pos, .specular], [.final_color]] := by
  decide

/-- C7 counterexample: the claim as stated requires the `Metaball` type to
expose a `falloff` parameter through its constructor and its uniform data;
neither the constructor parameters nor the uploaded uniform fields include
a falloff. -/
theorem C7_counterexample_no_falloff :
    ¬ ("falloff" ∈ Marched.Metaball.constructor_param_names ∨
       "falloff" ∈ Marched.UMetaball.field_names) := by
  decide

/-- C7 (amended): the engine's metaball primitive is defined by a position, a
color, and a radius — there is no falloff parameter — and the `Metaball`
type exposes exactly these three defining parameters through its
constructor and carries them unchanged into the uniform data it uploads for
rendering. -/
theorem C7_metaball_parameters :
    Marched.Metaball.constructor_param_names = ["position", "color", "radius"] ∧
    Marched.UMetaball.field_names = Marched.Metaball.constructor_param_names ∧
    ∀ p c r, (Marched.Metaball.new p c r).get_raw =
      { position := Marched.expand_vec3 p
        color := Marched.expand_vec3 c
        radius := r } :=
  ⟨rfl, rfl, fun _ _ _ => rfl⟩

/-- C8: for every input yielding `k` elements with `k ≤ MAX_LEN - 1`, the
public `to_partially_init_arr::<MAX_LEN, T>` returns, without panicking, an
array whose first `k` entries are exactly the input elements in order; it
panics if and only if the input yields `MAX_LEN` or more elements — so an
input of exactly `MAX_LEN` elements (the array's nominal capacity) panics,
even though the function's documentation says it panics only when the count
exceeds `MAX_LEN`. -/
theorem C8_to_partially_init_arr_capacity {α : Type} (MAX_LEN : Nat)
    (h : 1 ≤ MAX_LEN) (values : List α) :
    (values.length ≤ MAX_LEN - 1 →
      Marched.to_partially_init_arr MAX_LEN values = some values) ∧
    (Marched.to_partially_init_arr MAX_LEN values = none ↔
      MAX_LEN ≤ values.length) := by
  constructor
  · intro hlen
    exact Marched.write_loop_complete MAX_LEN values 0 (by omega)
  · constructor
    · intro hnone
      by_contra hlt
      push_neg at hlt
      rw [show Marched.to_partially_init_arr MAX_LEN values =
            Marched.write_loop MAX_LEN 0 values from rfl,
          Marched.write_loop_complete MAX_LEN values 0 (by omega)] at hnone
      exact Option.noConfusion hnone
    · intro hge
      exact Marched.write_loop_overflow MAX_LEN values 0 (by omega) (by omega)

/-- C8 witness: with capacity 4, three elements are returned in order; with
capacity 3, exactly three elements (the nominal capacity) panic. -/
theorem C8_witness :
    Marched.to_partially_init_arr 4 [10, 20, 30] = some [10, 20, 30] ∧
    Marched.to_partially_init_arr 3 [10, 20, 30] = none :=
  ⟨(C8_to_partially_init_arr_capacity 4 (by decide) [10, 20, 30]).1 (by decide),
   (C8_to_partially_init_arr_capacity 3 (by decide) [10, 20, 30]).2.mpr (by decide)⟩

/-- C9: `recreate_swapchain` is atomic on the unsupported-extent error: if
recreating the swapchain fails with
`SwapchainCreationError::ImageExtentNotSupported`, the function returns
normally and the renderer's swapchain, framebuffers, attachment buffers,
and viewport are all left unchanged (the state is returned untouched); any
other swapchain recreation error panics. -/
theorem C9_recreate_swapchain_atomic :
    ∀ st : Mod.State,
      st.recreate_swapchain .imageExtentNotSupported = some st ∧
      st.recreate_swapchain .otherError = none :=
  fun _ => ⟨rfl, rfl⟩

/-- One `draw_point_light` call from the `Ambient` or `Point` stage succeeds,
enters (or stays in) the `Point` stage, and appends exactly the point-light
command block. -/
theorem Mesh.draw_point_light_step (r : Mesh.MeshRenderer) (cmds : List Cmd)
    (herr : r.base.render_error = false)
    (hstage : r.render_stage = .Ambient ∨ r.render_stage = .Point)
    (hcmds : r.base.commands = some cmds) :
    r.draw_point_light = some { r with
      render_stage := .Point
      base := { r.base with commands := some (cmds ++ Mesh.point_light_cmds) } } := by
  rcases hstage with h | h <;>
    simp [Mesh.MeshRenderer.draw_point_light, herr, h, hcmds,
      Mesh.RenderStage.update]

/-- Any number of consecutive `draw_point_light` calls from the `Ambient` (or
`Point`) stage succeeds, and appends one point-light command block per
call. -/
theorem Mesh.draw_point_lights_spec (n : Nat) :
    ∀ (r : Mesh.MeshRenderer) (cmds : List Cmd),
      r.base.render_error = false →
      (r.render_stage = .Ambient ∨ r.render_stage = .Point) →
      r.base.commands = some cmds →
      ∃ r', Mesh.MeshRenderer.draw_point_lights n r = some r' ∧
        r'.base.commands =
          some (cmds ++ (List.replicate n Mesh.point_light_cmds).join) ∧
        r'.base.render_error = false ∧
        (r'.render_stage = .Ambient ∨ r'.render_stage = .Point) := by
  induction n with
  | zero =>
    intro r cmds herr hstage hcmds
    exact ⟨r, rfl, by simpa using hcmds, herr, hstage⟩
  | succ n ih =>
    intro r cmds herr hstage hcmds
    have hstep := Mesh.draw_point_light_step r cmds herr hstage hcmds
    obtain ⟨r', hrun, hcmds', herr', hstage'⟩ :=
      ih { r with
            render_stage := .Point
            base := { r.base with commands := some (cmds ++ Mesh.point_light_cmds) } }
        (cmds ++ Mesh.point_light_cmds) herr (Or.inr rfl) rfl
    refine ⟨r', ?_, ?_, herr', hstage'⟩
    · simp [Mesh.MeshRenderer.draw_point_lights, hstep, hrun]
    · rw [hcmds']
      simp [List.replicate_succ, List.join_cons, List.append_assoc]

/-- C6: point-light contributions accumulate: after the ambient stage, any
number of consecutive `draw_point_light` calls is legal (the Point stage
re-enters itself), each call appends exactly one full-screen draw over the
six-vertex dummy vertex buffer, and the point-light pipeline is configured
with additive blending (color blend op Add with source and destination
factors both One), so each light's output is summed onto the accumulated
lighting rather than replacing it. -/
theorem C6_point_light_accumulation (r : Mesh.MeshRenderer) (cmds : List Cmd)
    (n : Nat)
    (herr : r.base.render_error = false)
    (hstage : r.render_stage = .Ambient ∨ r.render_stage = .Point)
    (hcmds : r.base.commands = some cmds) :
    Mesh.RenderStage.update .Point .Point = some .Point ∧
    (∃ r', Mesh.MeshRenderer.draw_point_lights n r = some r' ∧
      r'.base.commands =
        some (cmds ++ (List.replicate n Mesh.point_light_cmds).join)) ∧
    Mesh.point_light_cmds =
      [Cmd.bindPipeline .point, Cmd.bindDescriptorSets .point,
       Cmd.bindVertexBuffer .dummy, Cmd.draw dummy_vertex_len] ∧
    dummy_vertex_len = 6 ∧
    Mesh.point_pipeline_blend.color_op = .add ∧
    Mesh.point_pipeline_blend.color_source = .one ∧
    Mesh.point_pipeline_blend.color_destination = .one := by
  obtain ⟨r', hrun, hcmds', _, _⟩ :=
    Mesh.draw_point_lights_spec n r cmds herr hstage hcmds
  exact ⟨rfl, ⟨r', hrun, hcmds'⟩, rfl, rfl, rfl, rfl, rfl⟩

/-- C6 witness: two consecutive point-light draws from the ambient stage on a
concrete renderer append two command blocks. -/
theorem C6_witness :
    ∃ r', Mesh.MeshRenderer.draw_point_lights 2 example_mesh_renderer = some r' ∧
      r'.base.commands =
        some ([] ++ (List.replicate 2 Mesh.point_light_cmds).join) :=
  (C6_point_light_accumulation example_mesh_renderer [] 2 rfl (Or.inl rfl) rfl).2.1

/-- C2: whenever the window has resized (the `should_recreate_swapchain` flag
is set when a frame starts) and the swapchain recreation attempt succeeds,
the renderer recreates the swapchain and every size-dependent resource —
framebuffers, attachment buffers, pipelines, and viewport dimensions — and
reconfigures the camera with the new window size, all before beginning the
frame's render pass (the render pass is begun on the newly created
framebuffers); in steady state (flag unset) none of these resources are
replaced. -/
theorem C2_resize_recreates_size_dependent (r : Mesh.MeshRenderer)
    (camera : Camera) (res : RecreateResult) (acq : AcquireResult)
    (i : Nat) (sub : Bool) (fut : Nat) (hwf : r.wf) :
    (r.base.should_recreate_swapchain = true →
      ∃ r1 camera1,
        r.start_render_pass camera .ok (.ok i sub fut) =
          some (r1, camera1, [Event.beganRenderPass r1.framebuffers i]) ∧
        r1.base.swapchain ≠ r.base.swapchain ∧
        r1.framebuffers ≠ r.framebuffers ∧
        r1.attachment_buffers ≠ r.attachment_buffers ∧
        r1.pipelines ≠ r.pipelines ∧
        r1.base.viewport_dims = r.base.window_size ∧
        camera1 = some r.base.window_size) ∧
    (r.base.should_recreate_swapchain = false →
      ∀ r1 camera1 evs,
        r.start_render_pass camera res acq = some (r1, camera1, evs) →
        r1.base.swapchain = r.base.swapchain ∧
        r1.framebuffers = r.framebuffers ∧
        r1.attachment_buffers = r.attachment_buffers ∧
        r1.pipelines = r.pipelines ∧
        r1.base.viewport_dims = r.base.viewport_dims) := by
  obtain ⟨hw1, hw2, hw3, hw4, hw5⟩ := hwf
  constructor
  · intro hflag
    refine ⟨{ base := { window_size := r.base.window_size
                        swapchain := r.base.fresh
                        images := r.base.fresh + 1
                        images_dims := r.base.window_size
                        viewport_dims := r.base.window_size
                        should_recreate_swapchain := r.base.should_recreate_swapchain
                        render_error := false
                        commands := some [Cmd.beginRenderPass (r.base.fresh + 2) i]
                        fresh := r.base.fresh + 5 }
              framebuffers := r.base.fresh + 2
              attachment_buffers := r.base.fresh + 3
              pipelines := r.base.fresh + 4
              vp_set := true
              render_stage := r.render_stage },
            some r.base.window_size, ?_, ?_, ?_, ?_, ?_, ?_, ?_⟩
    · simp [Mesh.MeshRenderer.start_render_pass,
        Mesh.MeshRenderer.recreate_all_size_dependent,
        Mesh.RenderBase.recreate_swapchain, Mesh.window_size_dependent_setup,
        Mesh.RenderBase.start, hflag]
    · simp only []; omega
    · simp only []; omega
    · simp only []; omega
    · simp only []; omega
    · rfl
    · rfl
  · intro hflag r1 camera1 evs hrun
    cases acq <;>
      simp [Mesh.MeshRenderer.start_render_pass, Mesh.RenderBase.start,
        hflag] at hrun
    · obtain ⟨h1, -, -⟩ := hrun
      subst h1
      exact ⟨rfl, rfl, rfl, rfl, rfl⟩
    · obtain ⟨h1, -, -⟩ := hrun
      subst h1
      exact ⟨rfl, rfl, rfl, rfl, rfl⟩

/-- C2 witness: on a concrete resized renderer, starting the frame recreates
the swapchain, framebuffers, attachment buffers, pipelines and viewport and
reconfigures the camera, and the render pass is begun on the new
framebuffers. -/
theorem C2_witness :
    ∃ r1 camera1,
      Mesh.MeshRenderer.start_render_pass example_resize_renderer none
          .ok (.ok 0 false 0) =
        some (r1, camera1, [Event.beganRenderPass r1.framebuffers 0]) ∧
      r1.base.swapchain ≠ example_resize_renderer.base.swapchain ∧
      r1.framebuffers ≠ example_resize_renderer.framebuffers ∧
      r1.attachment_buffers ≠ example_resize_renderer.attachment_buffers ∧
      r1.pipelines ≠ example_resize_renderer.pipelines ∧
      r1.base.viewport_dims = example_resize_renderer.base.window_size ∧
      camera1 = some example_resize_renderer.base.window_size :=
  (C2_resize_recreates_size_dependent example_resize_renderer none
    .ok (.ok 0 false 0) 0 false 0 (by decide)).1 rfl

/-- C3: the renderer synchronizes GPU/CPU with a pool of
`MAX_FRAMES_IN_FLIGHT = 3` fence slots indexed by swapchain image: before
recording a frame into an acquired image, `start()` waits on the fence
stored in that image's slot if one is present (the wait happens before the
command buffer recording begins); `finish()` takes the fence stored at
`previous_fence_idx` (emptying its slot) and joins it into the submission,
stores the submitted frame's fence future into the acquired image's slot
(or `None` on submission error), and records that slot as
`previous_fence_idx`. -/
theorem C3_fence_pool_synchronization (st : Mod.State) (d : Nat × Nat)
    (res : RecreateResult) (i : Nat) (sub : Bool) (f g : Nat)
    (cmds : List Cmd) (af : Nat) (prev_slot q : Option Nat)
    (hflag : st.should_recreate_swapchain = false)
    (hfence : st.fences[i]? = some (some g))
    (hstage : st.render_stage = .Point ∨ st.render_stage = .Unlit)
    (hcmds : st.commands = some cmds)
    (haf : st.acquire_future = some af)
    (hprev : st.fences[st.previous_fence_idx]? = some prev_slot)
    (hq : (st.fences.set st.previous_fence_idx none)[st.image_idx]? = some q) :
    (Mod.MAX_FRAMES_IN_FLIGHT = 3 ∧
      Mod.initial_fences = [none, none, none]) ∧
    (st.start (some d) res (.ok i sub f) =
      some ({ st with
                commands := some [Cmd.beginRenderPass st.framebuffers i]
                image_idx := i
                acquire_future := some f
                render_stage := .Albedo },
        some d,
        [Event.waitedFence g, Event.beganRenderPass st.framebuffers i])) ∧
    (∀ flush : FlushResult,
      st.finish flush =
        some ({ st with
                  fences := (st.fences.set st.previous_fence_idx none).set
                    st.image_idx (Mod.flush_fence flush)
                  commands := none
                  render_stage := .Stopped
                  previous_fence_idx := st.image_idx
                  acquire_future := none },
          [Event.submitted prev_slot af st.image_idx
            (cmds ++ [Cmd.endRenderPass])])) ∧
    (∀ fe, Mod.flush_fence (.ok fe) = some fe) ∧
    Mod.flush_fence .outOfDate = none ∧
    Mod.flush_fence .otherError = none := by
  refine ⟨⟨rfl, rfl⟩, ?_, ?_, fun _ => rfl, rfl, rfl⟩
  · simp [Mod.State.start, hflag, hfence]
  · intro flush
    rcases hstage with h | h <;>
      simp [Mod.State.finish, h, hcmds, haf, hprev, hq]

/-- C3 witness: on a concrete state in the `Unlit` stage with a pending fence
in slot 2, the next start waits on it, and finish stores the new fence into
the acquired slot and records it as previous. -/
theorem C3_witness :
    (Mod.MAX_FRAMES_IN_FLIGHT = 3 ∧
      Mod.initial_fences = [none, none, none]) ∧
    (Mod.State.start { example_mod_state with render_stage := .Unlit }
        (some (300, 300)) .ok (.ok 2 false 13) =
      some ({ { example_mod_state with render_stage := .Unlit } with
                commands := some [Cmd.beginRenderPass 7 2]
                image_idx := 2
                acquire_future := some 13
                render_stage := .Albedo },
        some (300, 300),
        [Event.waitedFence 9, Event.beganRenderPass 7 2])) ∧
    (∀ flush : FlushResult,
      Mod.State.finish { example_mod_state with render_stage := .Unlit } flush =
        some ({ { example_mod_state with render_stage := .Unlit } with
                  fences := (([none, none, some 9].set 2 none).set 1
                    (Mod.flush_fence flush) : List (Option Nat))
                  commands := none
                  render_stage := .Stopped
                  previous_fence_idx := 1
                  acquire_future := none },
          [Event.submitted (some 9) 11 1
            ([Cmd.beginRenderPass 7 1] ++ [Cmd.endRenderPass])])) ∧
    (∀ fe, Mod.flush_fence (.ok fe) = some fe) ∧
    Mod.flush_fence .outOfDate = none ∧
    Mod.flush_fence .otherError = none :=
  C3_fence_pool_synchronization { example_mod_state with render_stage := .Unlit }
    (300, 300) .ok 2 false 13 9 [Cmd.beginRenderPass 7 1] 11 (some 9) none
    rfl rfl (Or.inr rfl) rfl rfl rfl rfl

/-- C4: if swapchain image acquisition fails with `AcquireError::OutOfDate` at
the start of a frame, the renderer does not panic: it sets the render stage
to the `Error` state, marks the swapchain for recreation, and returns
(leaving the command buffer and fences untouched); every subsequent draw
call and `finish()` in that frame detects the `Error` state, discards the
command buffer, and returns normally as a no-op; and a next frame started
with the recreation flag set begins by recreating the swapchain. -/
theorem C4_out_of_date_skips_frame :
    (∀ (st : Mod.State) (camera : Camera) (res : RecreateResult),
      st.should_recreate_swapchain = false →
      ∃ camera1,
        st.start camera res .outOfDate =
          some ({ st with render_stage := .Error, should_recreate_swapchain := true },
            camera1, [])) ∧
    (∀ st : Mod.State, st.render_stage = .Error →
      (∀ k, st.draw_object k = some { st with commands := none }) ∧
      st.draw_ambient_light = some { st with commands := none } ∧
      st.draw_point_light = some { st with commands := none } ∧
      (∀ k, st.draw_object_unlit k = some { st with commands := none }) ∧
      (∀ flush, st.finish flush = some ({ st with commands := none }, []))) ∧
    (∀ (st st1 : Mod.State) (camera camera1 : Camera) (i : Nat) (sub : Bool)
        (fut : Nat) (evs : List Event),
      st.should_recreate_swapchain = true →
      st.start camera .ok (.ok i sub fut) = some (st1, camera1, evs) →
      st1.swapchain = st.fresh) := by
  refine ⟨?_, ?_, ?_⟩
  · intro st camera res hflag
    refine ⟨match camera with | none => some st.window_size | some d => some d, ?_⟩
    cases camera <;> simp [Mod.State.start, hflag]
  · intro st h
    refine ⟨fun k => ?_, ?_, ?_, fun k => ?_, fun flush => ?_⟩ <;>
      simp [Mod.State.draw_object, Mod.State.draw_ambient_light,
        Mod.State.draw_point_light, Mod.State.draw_object_unlit,
        Mod.State.finish, h]
  · intro st st1 camera camera1 i sub fut evs hflag hrun
    cases hsl : st.fences[i]? with
    | none =>
      simp [Mod.State.start, hflag, Mod.State.recreate_swapchain, hsl] at hrun
    | some slot =>
      simp [Mod.State.start, hflag, Mod.State.recreate_swapchain, hsl] at hrun
      obtain ⟨h1, -⟩ := hrun
      subst h1
      rfl

/-- C4 witness: on a concrete state, an out-of-date acquisition enters the
`Error` state and marks recreation; a point-light draw in the `Error` state
discards the command buffer and returns; and the next frame with the
recreation flag set starts on a freshly recreated swapchain. -/
theorem C4_witness :
    (∃ camera1,
      Mod.State.start example_mod_state (some (300, 300)) .ok .outOfDate =
        some ({ example_mod_state with
                  render_stage := .Error
                  should_recreate_swapchain := true }, camera1, [])) ∧
    (Mod.State.draw_point_light { example_mod_state with render_stage := .Error } =
      some { { example_mod_state with render_stage := .Error } with
               commands := none }) ∧
    (∃ st1 camera1 evs,
      Mod.State.start { example_mod_state with should_recreate_swapchain := true }
          (some (300, 300)) .ok (.ok 0 false 0) = some (st1, camera1, evs) ∧
      st1.swapchain =
        { example_mod_state with should_recreate_swapchain := true }.fresh) := by
  refine ⟨?_, ?_, ?_⟩
  · exact C4_out_of_date_skips_frame.1 example_mod_state (some (300, 300)) .ok rfl
  · exact (C4_out_of_date_skips_frame.2.1
      { example_mod_state with render_stage := .Error } rfl).2.2.1
  · refine ⟨_, _, _, rfl, ?_⟩
    exact C4_out_of_date_skips_frame.2.2 _ _ (some (300, 300)) _ 0 false 0 _
      rfl rfl

/-- C10: when no ambient light has been set (the ambient light buffer is
`None`), `draw_ambient_light` still advances the render stage from Albedo
to Ambient and still issues the transition to the lighting subpass before
returning without recording any draw; the transition cannot be issued a
second time in the frame (a second call panics), no other draw call
records a subpass transition, and subsequent point-light, unlit, and
finish calls remain legal whether or not an ambient light exists. -/
theorem C10_ambient_light_optional (st : Mod.State) (cmds : List Cmd)
    (af : Nat) (prev_slot q : Option Nat) (k : Nat) (flush : FlushResult)
    (h1 : st.render_stage = .Albedo)
    (h2 : st.ambient_light_buf = none)
    (h3 : st.commands = some cmds)
    (h4 : st.acquire_future = some af)
    (h5 : st.fences[st.previous_fence_idx]? = some prev_slot)
    (h6 : (st.fences.set st.previous_fence_idx none)[st.image_idx]? = some q) :
    ∃ st', st.draw_ambient_light = some st' ∧
      st'.render_stage = .Ambient ∧
      st'.commands = some (cmds ++ [Cmd.nextSubpass]) ∧
      st'.draw_ambient_light = none ∧
      (∃ st2, st'.draw_point_light = some st2 ∧
        ∃ st3, st2.draw_object_unlit k = some st3 ∧
          (st3.finish flush).isSome = true) ∧
      (∀ b, ∃ st5,
        ({ st with ambient_light_buf := some b } : Mod.State).draw_ambient_light
            = some st5 ∧
        st5.render_stage = .Ambient ∧
        st5.commands = some (cmds ++ Mod.ambient_light_cmds)) ∧
      Cmd.nextSubpass ∉ Mod.mod_point_light_cmds ∧
      (∀ n, Cmd.nextSubpass ∉ Mod.draw_object_cmds n) ∧
      (∀ n, Cmd.nextSubpass ∉ Mod.draw_object_unlit_cmds n) := by
  refine ⟨{ st with render_stage := .Ambient
                    commands := some (cmds ++ [Cmd.nextSubpass]) },
    ?_, rfl, rfl, ?_, ?_, ?_, ?_, ?_, ?_⟩
  · simp [Mod.State.draw_ambient_light, h1, h2, h3]
  · rfl
  · refine ⟨{ st with render_stage := .Point
                      commands := some ((cmds ++ [Cmd.nextSubpass]) ++
                        Mod.mod_point_light_cmds) }, rfl,
      { st with render_stage := .Unlit
                commands := some (((cmds ++ [Cmd.nextSubpass]) ++
                  Mod.mod_point_light_cmds) ++ Mod.draw_object_unlit_cmds k) },
      rfl, ?_⟩
    simp [Mod.State.finish, h4, h5, h6]
  · intro b
    refine ⟨{ st with ambient_light_buf := some b
                      render_stage := .Ambient
                      commands := some (cmds ++ Mod.ambient_light_cmds) }, ?_, rfl, rfl⟩
    simp [Mod.State.draw_ambient_light, h1, h3]
  · simp [Mod.mod_point_light_cmds]
  · intro n; simp [Mod.draw_object_cmds]
  · intro n; simp [Mod.draw_object_unlit_cmds]

/-- C10 witness: on a concrete frame in the Albedo stage with no ambient
light set, the ambient call advances the stage and issues exactly the
subpass transition, and point-light, unlit and finish calls still succeed. -/
theorem C10_witness :
    ∃ st', Mod.State.draw_ambient_light example_mod_state = some st' ∧
      st'.render_stage = .Ambient ∧
      st'.commands = some ([Cmd.beginRenderPass 7 1] ++ [Cmd.nextSubpass]) ∧
      st'.draw_ambient_light = none ∧
      (∃ st2, st'.draw_point_light = some st2 ∧
        ∃ st3, st2.draw_object_unlit 3 = some st3 ∧
          (st3.finish (.ok 0)).isSome = true) ∧
      (∀ b, ∃ st5,
        ({ example_mod_state with
            ambient_light_buf := some b } : Mod.State).draw_ambient_light
            = some st5 ∧
        st5.render_stage = .Ambient ∧
        st5.commands =
          some ([Cmd.beginRenderPass 7 1] ++ Mod.ambient_light_cmds)) ∧
      Cmd.nextSubpass ∉ Mod.mod_point_light_cmds ∧
      (∀ n, Cmd.nextSubpass ∉ Mod.draw_object_cmds n) ∧
      (∀ n, Cmd.nextSubpass ∉ Mod.draw_object_unlit_cmds n) :=
  C10_ambient_light_optional example_mod_state [Cmd.beginRenderPass 7 1] 11
    (some 9) none 3 (.ok 0) rfl rfl rfl rfl rfl rfl
